import Mathlib

/-!
Verification of the face-matching and session-lifecycle engine of a pet
face-recognition service (Django application `cat_dog_with_embedding`).

Shallow embedding conventions:
* Python/numpy floating-point numbers are idealized as exact rationals (`ℚ`),
  except that the IEEE-754 `nan` value is tracked explicitly where it can
  arise (division by a zero magnitude in `calculate_cosine_similarity`):
  type `PyFloat` below.  Python comparison semantics for `nan`
  (every comparison with `nan` is false) are modelled in `PyFloat.lt`.
* `np.linalg.norm`'s square root is modelled by `ratSqrt`, a computable
  stand-in that is exact on perfect squares and returns an unspecified
  positive rational otherwise.  No theorem below depends on the value of
  the square root beyond `ratSqrt 0 = 0` and exactness at the concrete
  inputs used in witnesses.
* Django model instances become Lean structures; a view handler becomes a
  pure function from the relevant pre-state (plus the results of the
  opaque detector/embedder adapters, passed as data) to a response and the
  post-state of the records it saves.
* Timestamps are rationals measured in minutes; `timezone.timedelta(minutes=30)`
  is the literal `30`.
* The YOLO detector and the CLIP embedder are opaque external capability
  providers; their per-image outputs are supplied as data
  (`Detection` lists, `Option` crop / embedding results).
-/

/-- A Python/numpy floating-point value, idealized as an exact rational but
with the `nan` value tracked explicitly. -/
inductive PyFloat where
  | nan : PyFloat
  | val : ℚ → PyFloat
deriving DecidableEq

/-- Addition: `nan` propagates (IEEE-754). -/
def PyFloat.add : PyFloat → PyFloat → PyFloat
  | .val a, .val b => .val (a + b)
  | _, _ => .nan

/-- Multiplication: `nan` propagates (IEEE-754; no infinities arise in the
modelled code paths, see `PyFloat.div`). -/
def PyFloat.mul : PyFloat → PyFloat → PyFloat
  | .val a, .val b => .val (a * b)
  | _, _ => .nan

/-- Division.  numpy maps `0/0` to `nan` (with a RuntimeWarning, not an
exception).  `x/0` for `x ≠ 0` gives `±inf` in numpy; in the modelled code a
zero divisor only arises as the norm of an all-zero vector, whose components
are all `0`, so only `0/0` is reachable; mapping the unreachable `x/0` to
`nan` as well is observation-equivalent (both `nan` and `+inf` clamp to `1`
under `max(0, min(1, _))` with Python comparison semantics). -/
def PyFloat.div : PyFloat → PyFloat → PyFloat
  | .val a, .val b => if b = 0 then .nan else .val (a / b)
  | _, _ => .nan

/-- Python `<` on floats: any comparison involving `nan` is false. -/
def PyFloat.lt : PyFloat → PyFloat → Bool
  | .val a, .val b => decide (a < b)
  | _, _ => false

/-- Python builtin `min(1, x)`: the running minimum starts at `1` and is
replaced by `x` only if `x < 1`; for `x = nan` the comparison is false, so
the result is `1`. -/
def pyMinOne (x : PyFloat) : PyFloat :=
  if PyFloat.lt x (.val 1) then x else .val 1

/-- Python builtin `max(0, y)`: the running maximum starts at `0` and is
replaced by `y` only if `y > 0`; for `y = nan` the comparison is false, so
the result is `0`. -/
def pyMaxZero (y : PyFloat) : PyFloat :=
  if PyFloat.lt (.val 0) y then y else .val 0

/-- `np.dot` on two 1-d arrays of equal length: sum of the componentwise
products.  (Length mismatch raises in numpy; callers model that exception
path explicitly.) -/
def npDot (a b : List PyFloat) : PyFloat :=
  (List.zipWith PyFloat.mul a b).foldl PyFloat.add (.val 0)

/-- Sum of squares of the components of a vector. -/
def normSq (v : List ℚ) : ℚ :=
  (v.map (fun x => x * x)).sum

/-- Integer square root by bounded search (kernel-reducible, unlike the
well-founded `Nat.sqrt`): the largest `k ≤ n` with `k * k ≤ n`. -/
def sqrtNat (n : Nat) : Nat :=
  ((List.range (n + 1)).filter (fun k => k * k ≤ n)).foldl max 0

/-- Computable stand-in for the real square root on `ℚ`: exact when the
argument is a perfect square of a rational, and an unspecified positive
rational otherwise.  Agrees with the real square root on `0` and on the
perfect squares appearing in concrete witnesses, and is positive on
positives — the only facts any theorem below uses. -/
def ratSqrt (q : ℚ) : ℚ :=
  if q ≤ 0 then 0
  else
    let n := sqrtNat q.num.toNat
    let d := sqrtNat q.den
    if n * n = q.num.toNat ∧ d * d = q.den then (n : ℚ) / (d : ℚ)
    else ((n : ℚ) + 1) / (d : ℚ)

/-- `np.linalg.norm` of a 1-d array: square root of the sum of squares. -/
def npNorm (v : List ℚ) : ℚ :=
  ratSqrt (normSq v)

/-- Extract the rational value of a clamped similarity.  `pyMaxZero ∘ pyMinOne`
never returns `nan` (`min(1, nan) = 1`), so the `nan` arm is dead code. -/
def PyFloat.toRat : PyFloat → ℚ
  | .val q => q
  | .nan => 0

/-- `face_recognition/services.py`, `calculate_cosine_similarity`:
normalize both vectors by their norms, take `np.dot`, then clamp with
`max(0, min(1, similarity))` and convert with `float(...)`.
The whole body is wrapped in `try/except` returning `0.0`; numpy raises only
on a shape mismatch of `np.dot` (division by a zero norm merely warns and
produces `nan`), so the exception path is modelled by the explicit length
guard. -/
def calculate_cosine_similarity (vec1 vec2 : List ℚ) : ℚ :=
  if vec1.length ≠ vec2.length then 0
  else
    let vec1_norm := vec1.map (fun x => PyFloat.div (.val x) (.val (npNorm vec1)))
    let vec2_norm := vec2.map (fun x => PyFloat.div (.val x) (.val (npNorm vec2)))
    let similarity := npDot vec1_norm vec2_norm
    (pyMaxZero (pyMinOne similarity)).toRat

/-- `face_recognition/models.py`, `FaceRecognitionResult.determine_confidence_level`. -/
def determine_confidence_level (similarity_score : ℚ) : String :=
  if similarity_score ≥ 9/10 then "eagle_trail"
  else if similarity_score ≥ 8/10 then "lobo_trail"
  else "no_match"

/-- `face_recognition/models.py`, `FaceEmbedding`: a stored template.  The
pet foreign key is an opaque id; `embedding_model` (an external Django
setting) and the audit metadata fields are not consulted by any modelled
logic and are omitted. -/
structure FaceEmbedding where
  pet : Nat
  embedding_vector : List ℚ
  vector_dimension : Nat
  status : String
  source_images_count : Nat
deriving DecidableEq

/-- One entry of the list built by
`FaceMatchingService.find_similar_pets` (a Python dict with keys
`pet`, `embedding`, `similarity`, `confidence_level`). -/
structure MatchEntry where
  pet : Nat
  embedding : FaceEmbedding
  similarity : ℚ
  confidence_level : String
deriving DecidableEq

/-- The comparison `similarities.sort(key=lambda x: x['similarity'], reverse=True)`
sorts into: descending similarity, ties kept in original order (Python's
sort is stable). -/
def simDescOrd (a b : MatchEntry) : Prop :=
  b.similarity ≤ a.similarity

instance : DecidableRel simDescOrd :=
  fun a b => inferInstanceAs (Decidable (b.similarity ≤ a.similarity))

instance : IsTotal MatchEntry simDescOrd :=
  ⟨fun a b => le_total b.similarity a.similarity⟩

instance : IsTrans MatchEntry simDescOrd :=
  ⟨fun _ _ _ h h' => le_trans h' h⟩

/-- `face_recognition/services.py`, `FaceMatchingService.find_similar_pets`:
filter the corpus to `status='completed'`, compute a similarity and a
confidence tier for each (the per-template `try/except` skip path is dead
in the model, which never raises), sort descending by similarity with a
stable sort, truncate to `top_k`. -/
def find_similar_pets (query_embedding : List ℚ) (corpus : List FaceEmbedding)
    (top_k : Nat) : List MatchEntry :=
  let all_embeddings := corpus.filter (fun e => e.status = "completed")
  let similarities := all_embeddings.map (fun e =>
    let similarity := calculate_cosine_similarity query_embedding e.embedding_vector
    { pet := e.pet, embedding := e, similarity := similarity,
      confidence_level := determine_confidence_level similarity : MatchEntry })
  (List.insertionSort simDescOrd similarities).take top_k

/-- One detection dict returned by `YOLODetectionService.detect_pet_faces`
(the Python key `class` is a Lean keyword, renamed `cls`). -/
structure Detection where
  cls : String
  confidence : ℚ
  bounding_box : List ℚ
  area : ℚ
deriving DecidableEq

/-- One image of `PetImage` together with the outputs of the opaque
detector/embedder adapters on it: `detections` is what
`detect_pet_faces` returns for the image (already sorted descending by
confidence by that adapter), `face_crop` the result of
`extract_face_crop` on the best face box (opaque crop id, `none` on
failure), `crop_embedding` the result of `generate_embedding` on that
crop (`none` on failure). -/
structure PetImage where
  detections : List Detection
  face_crop : Option Nat
  crop_embedding : Option (List ℚ)

/-- Python str.endswith on the underlying character lists (Lean's own
String suffix test does not reduce in the kernel, so witnesses could not
evaluate it). -/
def pyEndsWith (s suffix : String) : Bool :=
  suffix.data.isSuffixOf s.data

/-- The per-image body of the loop in
`FaceEmbeddingService.generate_pet_embeddings`: keep detections whose class
ends in `_face`; skip the image if none; take the highest-confidence face
detection (head of the sorted list); skip on crop failure; the embedding
(possibly `none`) is the image's contribution.  (The audit-trail
`FaceDetection.objects.create` side effect writes a record derived from
`best_detection`; it does not influence the returned template.) -/
def process_pet_image (img : PetImage) : Option (List ℚ) :=
  let face_detections := img.detections.filter (fun d => pyEndsWith d.cls "_face")
  match face_detections with
  | [] => none
  | _best :: _ =>
    match img.face_crop with
    | none => none
    | some _ => img.crop_embedding

/-- `np.sum(vs, axis=0)` for a nonempty list of equal-length vectors:
componentwise sum. -/
def sumVecs : List (List ℚ) → List ℚ
  | [] => []
  | [v] => v
  | v :: w :: rest => List.zipWith (· + ·) v (sumVecs (w :: rest))

/-- `np.mean(vs, axis=0)`: componentwise arithmetic mean. -/
def npMean (vs : List (List ℚ)) : List ℚ :=
  (sumVecs vs).map (fun x => x / (vs.length : ℚ))

/-- `face_recognition/services.py`, `FaceEmbeddingService.generate_pet_embeddings`:
return `none` on an empty image list; process each image, collecting
successful embeddings and counting successful images; return `none` if no
embedding succeeded; otherwise average the embeddings componentwise and
create a `completed` `FaceEmbedding` whose source image count is the
number of images that contributed. -/
def generate_pet_embeddings (pet : Nat) (pet_images : List PetImage) : Option FaceEmbedding :=
  match pet_images with
  | [] => none
  | _ :: _ =>
    let all_embeddings := pet_images.filterMap process_pet_image
    match all_embeddings with
    | [] => none
    | _ :: _ =>
      let final_embedding := npMean all_embeddings
      some { pet := pet
             embedding_vector := final_embedding
             vector_dimension := final_embedding.length
             status := "completed"
             source_images_count := all_embeddings.length }

/-- `pets/models.py`, `PetRegistrationSession` (fields consulted by the
modelled logic; timestamps are rationals in minutes). -/
structure PetRegistrationSession where
  pet : Nat
  session_token : String
  status : String
  start_time : ℚ
  expected_images_count : Nat
  actual_images_count : Nat
deriving DecidableEq

/-- `pets/models.py`, `PetRegistrationSession.is_expired`: an `active`
session is expired once `timezone.now()` is strictly past
`start_time + 30 minutes`; any other status is never expired. -/
def PetRegistrationSession.is_expired (s : PetRegistrationSession) (now : ℚ) : Bool :=
  if s.status = "active" then decide (now > s.start_time + 30) else false

/-- `pets/models.py`, `Pet` (the field the modelled logic mutates). -/
structure Pet where
  id : Nat
  registration_status : String
deriving DecidableEq

/-- Outcome of `PetViewSet.start_face_id`: HTTP 400 with the existing
session's token, or success with the new session's token. -/
inductive StartFaceIdResult where
  | alreadyActive (session_token : String)
  | started (session_token : String)
deriving DecidableEq

/-- The `for session in active_sessions:` loop of `start_face_id`: walk the
pet's sessions; each `active` one that is expired is saved with status
`expired`; the first `active` unexpired one aborts the walk, returning its
token (sessions after it are untouched). -/
def expireStaleActives (now : ℚ) :
    List PetRegistrationSession → List PetRegistrationSession × Option String
  | [] => ([], none)
  | s :: rest =>
    if s.status = "active" then
      if s.is_expired now then
        let (rest', r) := expireStaleActives now rest
        ({ s with status := "expired" } :: rest', r)
      else (s :: rest, some s.session_token)
    else
      let (rest', r) := expireStaleActives now rest
      (s :: rest', r)

/-- `pets/views.py`, `PetViewSet.start_face_id`, as a function of the pet,
its sessions, the current time and the freshly generated token
(`secrets.token_urlsafe(32)`; uniqueness is the caller's hypothesis,
enforced in the source by the DB unique constraint).  If some active
session is unexpired, reject with its token; otherwise create a fresh
`active` session with `expected_images_count=10` and set the pet's
registration status to `processing`. -/
def start_face_id (now : ℚ) (fresh_token : String) (pet : Pet)
    (sessions : List PetRegistrationSession) :
    StartFaceIdResult × Pet × List PetRegistrationSession :=
  match expireStaleActives now sessions with
  | (sessions', some tok) => (.alreadyActive tok, pet, sessions')
  | (sessions', none) =>
    (.started fresh_token,
     { pet with registration_status := "processing" },
     sessions' ++ [{ pet := pet.id, session_token := fresh_token, status := "active",
                     start_time := now, expected_images_count := 10,
                     actual_images_count := 0 }])

/-- `pets/views.py`, `PetImageUploadView.post`, lines 200–214: the quality
status assigned to one appended image from the detector's output for it
(`detections` sorted descending by confidence by the adapter, so the best
detection is the head).  `good` for best confidence strictly above `0.7`,
`poor` for strictly above `0.5`, otherwise `rejected`; `rejected` also when
there is no detection. -/
def determine_quality_status (detections : List Detection) : String :=
  match detections with
  | [] => "rejected"
  | best :: _ =>
    if best.confidence > 7/10 then "good"
    else if best.confidence > 1/2 then "poor"
    else "rejected"

/-- `qr_search/models.py`, `QRCode` (fields consulted by the modelled
logic). -/
structure QRCode where
  code : String
  qr_type : String
  status : String
  expires_at : ℚ
  used_at : Option ℚ
  usage_count : Int
  max_usage : Int
deriving DecidableEq

/-- `qr_search/models.py`, `QRCode.is_expired`. -/
def QRCode.is_expired (qr : QRCode) (now : ℚ) : Bool :=
  decide (now > qr.expires_at)

/-- `qr_search/models.py`, `QRCode.is_usable`: re-derived on each check
from status, expiry and the usage counter. -/
def QRCode.is_usable (qr : QRCode) (now : ℚ) : Bool :=
  decide (qr.status = "active") && !(qr.is_expired now)
    && decide (qr.usage_count < qr.max_usage)

/-- `qr_search/models.py`, `QRCode.mark_as_used`: increment the counter,
stamp `used_at`, and flip the status to `used` once the incremented
counter has reached the cap. -/
def QRCode.mark_as_used (qr : QRCode) (now : ℚ) : QRCode :=
  let qr' := { qr with usage_count := qr.usage_count + 1, used_at := some now }
  if qr'.usage_count ≥ qr'.max_usage then { qr' with status := "used" } else qr'

/-- A `FaceRecognitionResult` row as created by the QR search flow (the
fields consulted by the modelled logic). -/
structure FaceRecognitionResult where
  matched_pet : Nat
  similarity_score : ℚ
  confidence_level : String
  result_type : String
deriving DecidableEq

/-- `qr_search/models.py`, `QRSearchSession` (fields consulted by the
modelled logic). -/
structure QRSearchSession where
  qr_code : String
  session_token : String
  status : String
  expires_at : ℚ
  completed_at : Option ℚ
  search_result : Option FaceRecognitionResult
deriving DecidableEq

/-- `qr_search/models.py`, `QRSearchSession.is_expired`. -/
def QRSearchSession.is_expired (s : QRSearchSession) (now : ℚ) : Bool :=
  decide (now > s.expires_at)

/-- Outcome of `QRScanView.post` for an existing code. -/
inductive ScanResult where
  | sessionCreated (session_token : String)
  | notUsable (error : String)
deriving DecidableEq

/-- `qr_search/views.py`, `QRScanView.post`, for an existing `QRCode`: if
the code is not usable, reject (with the expired or not-active message);
otherwise create an `initiated` `QRSearchSession` with its own 30-minute
expiry. -/
def qr_scan_post (now : ℚ) (fresh_token : String) (qr : QRCode) :
    ScanResult × Option QRSearchSession :=
  if qr.is_usable now then
    (.sessionCreated fresh_token,
     some { qr_code := qr.code, session_token := fresh_token, status := "initiated",
            expires_at := now + 30, completed_at := none, search_result := none })
  else
    (.notUsable (if qr.is_expired now then "QR code has expired" else "QR code is not active"),
     none)

/-- Outcome of `QRSearchView.post`.  `invalidSessionToken` is the
serializer rejection for a token whose session's status is not
`initiated` or `image_uploaded` (or a token with no session at all);
`sessionExpired` the rejection of an expired session. -/
inductive QRSearchResponse where
  | invalidSessionToken
  | sessionExpired
  | noFaceDetected
  | searchCompleted (match_found : Bool)
deriving DecidableEq

/-- `qr_search/views.py`, `QRSearchView.post`, for an existing
`QRSearchSession` and its originating `QRCode`, as a function of the
pre-state, the (opaque) detect-and-embed outcome of the uploaded image
(`query_embedding`, the return of `process_search_image`), and the
template corpus.  Returns the response and the saved post-state of the
session and the code.

The handler first runs `QRSearchRequestSerializer.is_valid()`, whose
`validate_session_token` (`qr_search/serializers.py`) looks the session up
with `status__in=['initiated', 'image_uploaded']` — a session in any other
status is not found and the request is rejected with `Invalid session
token`, saving nothing — and then raises `Search session has expired` for
a found-but-expired session, again saving nothing.  Only then does the
view body run; its own `is_expired()` re-check uses the same clock, so
under this single-instant model it cannot fire and its
`status='expired'` save is unreachable.  On no detected face the session
is failed and the code is untouched; otherwise the corpus is ranked with
`top_k=5`, a recognition result is created and linked if any match
exists, the code is marked used, and the session is completed.  (The
intermediate `status='processing'` save is overwritten before the handler
returns and is not part of the final state.) -/
def qr_search_post (now : ℚ) (session : QRSearchSession) (qr : QRCode)
    (query_embedding : Option (List ℚ)) (corpus : List FaceEmbedding) :
    QRSearchResponse × QRSearchSession × QRCode :=
  if ¬ (session.status = "initiated" ∨ session.status = "image_uploaded") then
    (.invalidSessionToken, session, qr)
  else if session.is_expired now then
    (.sessionExpired, session, qr)
  else if session.is_expired now then
    -- the view body's own expiry check: dead under a single-instant clock,
    -- kept for fidelity to the source
    (.sessionExpired, { session with status := "expired" }, qr)
  else
    match query_embedding with
    | none => (.noFaceDetected, { session with status := "failed" }, qr)
    | some q =>
      let match_list := find_similar_pets q corpus 5
      let search_result : Option FaceRecognitionResult :=
        match match_list with
        | [] => none
        | best :: _ => some { matched_pet := best.pet, similarity_score := best.similarity,
                              confidence_level := best.confidence_level,
                              result_type := "search" }
      let session' : QRSearchSession :=
        { session with
          status := "completed", completed_at := some now,
          search_result := match search_result with
            | none => session.search_result
            | some r => some r }
      (.searchCompleted search_result.isSome, session', qr.mark_as_used now)

/-- The completed subset of the corpus (the queryset
`FaceEmbedding.objects.filter(status='completed')`), for stating rank
properties. -/
def completedTemplates (corpus : List FaceEmbedding) : List FaceEmbedding :=
  corpus.filter (fun e => e.status = "completed")

/-- The scored entry `find_similar_pets` builds for one corpus template. -/
def scoreTemplate (query_embedding : List ℚ) (e : FaceEmbedding) : MatchEntry :=
  let similarity := calculate_cosine_similarity query_embedding e.embedding_vector
  { pet := e.pet, embedding := e, similarity := similarity,
    confidence_level := determine_confidence_level similarity }

/-- Concrete corpus for witnesses: five completed templates and one
pending one (2-dimensional vectors whose norms the model computes
exactly or deterministically). -/
def corpusFixture : List FaceEmbedding :=
  [ ⟨1, [1, 0], 2, "completed", 1⟩,
    ⟨2, [1, 1], 2, "completed", 1⟩,
    ⟨3, [0, 1], 2, "completed", 1⟩,
    ⟨4, [1, -1], 2, "completed", 1⟩,
    ⟨5, [-1, 0], 2, "completed", 1⟩,
    ⟨6, [1, 0], 2, "pending", 1⟩ ]

/-- Concrete image batch for witnesses: the first and third images succeed
(with embeddings `[1, 3]` and `[3, 1]`), the second has no face-class
detection and is skipped. -/
def imgsFixture : List PetImage :=
  [ ⟨[⟨"cat_face", 9/10, [0, 0, 10, 10], 100⟩], some 0, some [1, 3]⟩,
    ⟨[⟨"cat", 8/10, [0, 0, 10, 10], 100⟩], some 1, some [9, 9]⟩,
    ⟨[⟨"dog_face", 3/4, [0, 0, 10, 10], 100⟩], some 2, some [3, 1]⟩ ]

/-- Concrete registration sessions for witnesses. -/
def freshActiveSession : PetRegistrationSession :=
  ⟨7, "tok-fresh", "active", 0, 10, 0⟩

def staleActiveSession : PetRegistrationSession :=
  ⟨7, "tok-stale", "active", -60, 10, 3⟩

def completedSession : PetRegistrationSession :=
  ⟨7, "tok-done", "completed", -60, 10, 10⟩

def petFixture : Pet :=
  ⟨7, "pending"⟩

/-- Concrete QR records for witnesses and counterexamples. -/
def qrFixture : QRCode :=
  ⟨"QRCODE", "pet_search", "active", 1000, none, 0, 1⟩

def qrMultiFixture : QRCode :=
  ⟨"QRMULT", "pet_search", "active", 1000, none, 0, 5⟩

/-- A QR search session already in the terminal status `completed` whose
expiry timestamp (minute 100) has not yet passed at minute 50. -/
def completedQRSession : QRSearchSession :=
  ⟨"QRMULT", "qtok", "completed", 100, some 1, none⟩

def initiatedQRSession : QRSearchSession :=
  ⟨"QRCODE", "qtok2", "initiated", 100, none, none⟩

theorem sqrtNat_zero : sqrtNat 0 = 0 := rfl

theorem sqrtNat_one : sqrtNat 1 = 1 := rfl

theorem sqrtNat_two : sqrtNat 2 = 1 := rfl

/-- C1: for every similarity score `s`, the tier is `eagle_trail` iff
`s ≥ 0.90`, `lobo_trail` iff `0.80 ≤ s < 0.90`, and `no_match` iff
`s < 0.80`; in particular exactly `0.90` maps to `eagle_trail` and exactly
`0.80` maps to `lobo_trail`. -/
theorem determine_confidence_level_spec (s : ℚ) :
    (determine_confidence_level s = "eagle_trail" ↔ 9/10 ≤ s) ∧
    (determine_confidence_level s = "lobo_trail" ↔ 8/10 ≤ s ∧ s < 9/10) ∧
    (determine_confidence_level s = "no_match" ↔ s < 8/10) ∧
    determine_confidence_level (9/10) = "eagle_trail" ∧
    determine_confidence_level (8/10) = "lobo_trail" := by
  have hel : ("eagle_trail" : String) ≠ "lobo_trail" := by decide
  have hen : ("eagle_trail" : String) ≠ "no_match" := by decide
  have hln : ("lobo_trail" : String) ≠ "no_match" := by decide
  refine ⟨?_, ?_, ?_, ?_, ?_⟩
  · by_cases h9 : 9/10 ≤ s
    · simp [determine_confidence_level, ge_iff_le, h9]
    · by_cases h8 : 8/10 ≤ s <;>
        simp [determine_confidence_level, ge_iff_le, h9, h8, hel.symm, hen.symm]
  · by_cases h9 : 9/10 ≤ s
    · simp [determine_confidence_level, ge_iff_le, h9, hel, not_lt.mpr h9]
    · by_cases h8 : 8/10 ≤ s <;>
        simp [determine_confidence_level, ge_iff_le, h9, h8, hln.symm, lt_of_not_le h9]
  · by_cases h9 : 9/10 ≤ s
    · have h8 : 8/10 ≤ s := le_trans (show (8:ℚ)/10 ≤ 9/10 by norm_num) h9
      simp [determine_confidence_level, ge_iff_le, h9, hen, not_lt.mpr h8]
    · by_cases h8 : 8/10 ≤ s
      · simp [determine_confidence_level, ge_iff_le, h9, h8, hln, not_lt.mpr h8]
      · simp [determine_confidence_level, ge_iff_le, h9, h8, lt_of_not_le h8]
  · norm_num [determine_confidence_level]
  · norm_num [determine_confidence_level]

/-- C2 (failing input): on the zero-magnitude vector `[0, 0]` against
`[1, 0]`, the code returns `1.0`, not `0.0`: numpy turns `0/0` into `nan`
(warning, not an exception), and Python's `max(0, min(1, nan))` evaluates
to `1` because every comparison with `nan` is false. -/
theorem calculate_cosine_similarity_zero_vector_eval :
    calculate_cosine_similarity [0, 0] [1, 0] = 1 ∧
    calculate_cosine_similarity [0, 0] [1, 0] ≠ 0 := by
  have h : calculate_cosine_similarity [0, 0] [1, 0] = 1 := by
    norm_num [calculate_cosine_similarity, npNorm, normSq, ratSqrt, sqrtNat_zero, sqrtNat_one,
      npDot, pyMaxZero, pyMinOne, PyFloat.div, PyFloat.mul, PyFloat.add, PyFloat.lt,
      PyFloat.toRat]
  exact ⟨h, by rw [h]; norm_num⟩

/-- C9 counterexample: a best detection with confidence exactly `0.5` is
classified `rejected` by the code, where the claim's tiers
(`poor` for 0.5–0.7, `rejected` only below 0.5) would classify it `poor`. -/
theorem determine_quality_status_half_cex :
    determine_quality_status [⟨"cat_face", 1/2, [0, 0, 10, 10], 100⟩] = "rejected" ∧
    ("rejected" : String) ≠ "poor" := by
  constructor
  · norm_num [determine_quality_status]
  · decide

/-- C9 (amended): quality is `good` iff there is a detection and the best
confidence is strictly above `0.7`; `poor` iff the best confidence is
strictly above `0.5` and at most `0.7`; `rejected` iff there is no
detection or the best confidence is at most `0.5` (so exactly `0.5` is
`rejected`, not `poor`). -/
theorem determine_quality_status_spec (detections : List Detection) :
    (determine_quality_status detections = "good" ↔
      ∃ b t, detections = b :: t ∧ 7/10 < b.confidence) ∧
    (determine_quality_status detections = "poor" ↔
      ∃ b t, detections = b :: t ∧ 1/2 < b.confidence ∧ b.confidence ≤ 7/10) ∧
    (determine_quality_status detections = "rejected" ↔
      detections = [] ∨ ∃ b t, detections = b :: t ∧ b.confidence ≤ 1/2) := by
  have hgp : ("good" : String) ≠ "poor" := by decide
  have hgr : ("good" : String) ≠ "rejected" := by decide
  have hpr : ("poor" : String) ≠ "rejected" := by decide
  cases detections with
  | nil => simp [determine_quality_status, hgr.symm, hpr.symm]
  | cons b t =>
    by_cases h7 : 7/10 < b.confidence
    · have h5 : (2 : ℚ)⁻¹ < b.confidence := lt_trans (by norm_num) h7
      refine ⟨?_, ?_, ?_⟩ <;>
        simp [determine_quality_status, h7, hgp, hgr, not_le.mpr h7, not_le.mpr h5, h5]
    · by_cases h5 : (2 : ℚ)⁻¹ < b.confidence
      · refine ⟨?_, ?_, ?_⟩ <;>
          simp [determine_quality_status, h5, h7, hgp.symm, hpr, not_le.mpr h5, not_lt.mp h7]
      · refine ⟨?_, ?_, ?_⟩ <;>
          simp [determine_quality_status, h5, h7, hgr.symm, hpr.symm, not_lt.mp h5,
            not_lt.mp h7]

/-- C10: the registration-session expiry check returns true exactly when
the session status is `active` and the current time is strictly more than
30 minutes past the start time; for `completed`, `failed` or `expired`
sessions it returns false. -/
theorem reg_session_is_expired_spec (s : PetRegistrationSession) (now : ℚ) :
    (s.is_expired now = true ↔ s.status = "active" ∧ s.start_time + 30 < now) ∧
    (s.status = "completed" ∨ s.status = "failed" ∨ s.status = "expired" →
      s.is_expired now = false) := by
  by_cases h : s.status = "active"
  · constructor
    · simp [PetRegistrationSession.is_expired, h, gt_iff_lt]
    · rintro (hc | hc | hc) <;> rw [hc] at h <;> exact absurd h (by decide)
  · constructor
    · simp [PetRegistrationSession.is_expired, h]
    · intro hc
      simp [PetRegistrationSession.is_expired, h]

/-- C10 witness: a completed session is never reported expired, and an
active session started 60 minutes ago is. -/
theorem reg_session_is_expired_witness :
    completedSession.is_expired 1000 = false ∧ staleActiveSession.is_expired 0 = true := by
  constructor
  · exact (reg_session_is_expired_spec completedSession 1000).2 (Or.inl rfl)
  · exact (reg_session_is_expired_spec staleActiveSession 0).1.mpr
      ⟨rfl, by norm_num [staleActiveSession]⟩

/-- C7: a QR code is usable iff its status is `active`, the current time is
not past its expiry, and its usage counter is strictly below its cap; each
use increments the counter by exactly one and flips the status to `used`
exactly when the incremented counter has reached the cap; a successful
search completion (an upload with a detected face on a live —
`initiated` or `image_uploaded` — unexpired session) marks the code used;
and for `max_usage = 1` one use makes the code `used`, so a second scan
attempt is rejected as not usable. -/
theorem qr_code_usage_spec :
    (∀ (qr : QRCode) (now : ℚ),
      qr.is_usable now = true ↔
        qr.status = "active" ∧ ¬ qr.expires_at < now ∧ qr.usage_count < qr.max_usage) ∧
    (∀ (qr : QRCode) (now : ℚ),
      (qr.mark_as_used now).usage_count = qr.usage_count + 1) ∧
    (∀ (qr : QRCode) (now : ℚ),
      qr.max_usage ≤ qr.usage_count + 1 → (qr.mark_as_used now).status = "used") ∧
    (∀ (qr : QRCode) (now : ℚ),
      qr.usage_count + 1 < qr.max_usage → (qr.mark_as_used now).status = qr.status) ∧
    (∀ (now : ℚ) (session : QRSearchSession) (qr : QRCode) (corpus : List FaceEmbedding)
        (q : List ℚ),
      session.status = "initiated" ∨ session.status = "image_uploaded" →
      ¬ session.expires_at < now →
      (qr_search_post now session qr (some q) corpus).2.2 = qr.mark_as_used now) ∧
    (∀ (qr : QRCode) (now now2 : ℚ) (tok : String),
      qr.max_usage = 1 → qr.usage_count = 0 →
        (qr.mark_as_used now).status = "used" ∧
        (qr.mark_as_used now).is_usable now2 = false ∧
        (qr_scan_post now2 tok (qr.mark_as_used now)).2 = none ∧
        (qr_scan_post now2 tok (qr.mark_as_used now)).1 =
          .notUsable (if (qr.mark_as_used now).is_expired now2
                      then "QR code has expired" else "QR code is not active")) := by
  have husable : ∀ (qr : QRCode) (now : ℚ),
      qr.is_usable now = true ↔
        qr.status = "active" ∧ ¬ qr.expires_at < now ∧ qr.usage_count < qr.max_usage := by
    intro qr now
    simp [QRCode.is_usable, QRCode.is_expired, gt_iff_lt, and_assoc]
  have hcount : ∀ (qr : QRCode) (now : ℚ),
      (qr.mark_as_used now).usage_count = qr.usage_count + 1 := by
    intro qr now
    simp only [QRCode.mark_as_used]
    split <;> rfl
  have hused : ∀ (qr : QRCode) (now : ℚ),
      qr.max_usage ≤ qr.usage_count + 1 → (qr.mark_as_used now).status = "used" := by
    intro qr now h
    simp only [QRCode.mark_as_used]
    rw [if_pos h]
  refine ⟨husable, hcount, hused, ?_, ?_, ?_⟩
  · intro qr now h
    unfold QRCode.mark_as_used
    rw [if_neg (not_le.mpr h)]
  · intro now session qr corpus q hst h
    simp [qr_search_post, QRSearchSession.is_expired, hst, h]
  · intro qr now now2 tok hmax hcount0
    have hst : (qr.mark_as_used now).status = "used" := hused qr now (by omega)
    have hnu : (qr.mark_as_used now).is_usable now2 = false := by
      rw [Bool.eq_false_iff]
      intro hu
      have := ((husable _ now2).mp hu).1
      rw [hst] at this
      exact absurd this (by decide)
    refine ⟨hst, hnu, ?_, ?_⟩ <;> simp [qr_scan_post, hnu]

/-- C8: if no pet face is detected in the uploaded search image (the
detect-and-embed pipeline returns `none`) on a live session — one that
passes the serializer gate (`initiated` or `image_uploaded`) within its
expiry window, the only kind of session on which an upload reaches
detection at all — the session is saved with status `failed` and the
originating QR code is returned unchanged: its counter and status are
untouched. -/
theorem qr_search_no_face_spec (now : ℚ) (session : QRSearchSession) (qr : QRCode)
    (corpus : List FaceEmbedding)
    (hst : session.status = "initiated" ∨ session.status = "image_uploaded")
    (h : ¬ session.expires_at < now) :
    qr_search_post now session qr none corpus =
      (.noFaceDetected, { session with status := "failed" }, qr) := by
  simp [qr_search_post, QRSearchSession.is_expired, hst, h]

/-- C8 witness: a concrete no-face upload at minute 50 on a session
expiring at minute 100 fails the session and leaves the code untouched. -/
theorem qr_search_no_face_witness :
    qr_search_post 50 initiatedQRSession qrFixture none [] =
      (.noFaceDetected, { initiatedQRSession with status := "failed" }, qrFixture) :=
  qr_search_no_face_spec 50 initiatedQRSession qrFixture [] (Or.inl rfl)
    (by norm_num [initiatedQRSession])

/-- C7 witness: the concrete code with `max_usage = 1` completes one QR
search at minute 50 (which marks it used), and a scan attempt at minute 60
is rejected as not usable. -/
theorem qr_code_usage_witness :
    (qr_search_post 50 initiatedQRSession qrFixture (some [1, 0]) []).2.2 =
      qrFixture.mark_as_used 50 ∧
    (qrFixture.mark_as_used 50).status = "used" ∧
    (qrFixture.mark_as_used 50).is_usable 60 = false ∧
    (qr_scan_post 60 "tok2" (qrFixture.mark_as_used 50)).2 = none ∧
    (qr_scan_post 60 "tok2" (qrFixture.mark_as_used 50)).1 =
      .notUsable "QR code is not active" := by
  have hflow := qr_code_usage_spec.2.2.2.2.1 50 initiatedQRSession qrFixture [] [1, 0]
    (Or.inl rfl) (by norm_num [initiatedQRSession])
  have h := qr_code_usage_spec.2.2.2.2.2 qrFixture 50 60 "tok2" rfl rfl
  refine ⟨hflow, h.1, h.2.1, h.2.2.1, ?_⟩
  rw [h.2.2.2]
  have hexp : (qrFixture.mark_as_used 50).is_expired 60 = false := by
    simp [QRCode.mark_as_used, QRCode.is_expired, qrFixture]
    norm_num
  rw [hexp]
  simp

/-- C6: once a QRSearchSession has reached a terminal status
(`completed`, `failed` or `expired`), every subsequent image-upload
request on it is rejected — the serializer's session lookup with
`status__in=['initiated', 'image_uploaded']` fails, producing the
`Invalid session token` error — and both the session and its QR code are
returned exactly unchanged, so the session never progresses again: the
status progression is forward-only. -/
theorem qr_search_terminal_rejected_spec (now : ℚ) (session : QRSearchSession)
    (qr : QRCode) (query_embedding : Option (List ℚ)) (corpus : List FaceEmbedding)
    (h : session.status = "completed" ∨ session.status = "failed" ∨
      session.status = "expired") :
    qr_search_post now session qr query_embedding corpus =
      (.invalidSessionToken, session, qr) := by
  have hni : ¬ (session.status = "initiated" ∨ session.status = "image_uploaded") := by
    rcases h with h | h | h <;> rw [h] <;> decide
  simp [qr_search_post, hni]

/-- C6 witness: a `completed` session whose expiry timestamp (minute 100)
has not even passed at minute 50 still rejects an upload carrying a
detected face, leaving the session and the QR code untouched. -/
theorem qr_search_terminal_rejected_witness :
    qr_search_post 50 completedQRSession qrMultiFixture (some [1, 0]) [] =
      (.invalidSessionToken, completedQRSession, qrMultiFixture) :=
  qr_search_terminal_rejected_spec 50 completedQRSession qrMultiFixture
    (some [1, 0]) [] (Or.inl rfl)


/-- If the pet has no active unexpired session, the start_face_id loop
marks every active (hence expired) session `expired`, leaves the rest
unchanged, and reports no conflict. -/
theorem expireStaleActives_none (now : ℚ) :
    ∀ ss : List PetRegistrationSession,
      ss.find? (fun x => decide (x.status = "active") && !(x.is_expired now)) = none →
      expireStaleActives now ss =
        (ss.map (fun s => if s.status = "active" then { s with status := "expired" } else s),
         none) := by
  intro ss
  induction ss with
  | nil => intro _; rfl
  | cons s rest ih =>
    intro h
    by_cases hact : s.status = "active"
    · by_cases hexp : s.is_expired now = true
      · have hrest : rest.find?
            (fun x => decide (x.status = "active") && !(x.is_expired now)) = none := by
          rw [List.find?_cons_of_neg _ (by simp [hact, hexp])] at h
          exact h
        simp [expireStaleActives, hact, hexp, ih hrest]
      · exfalso
        rw [List.find?_cons_of_pos _ (by simp [hact, hexp])] at h
        exact Option.some_ne_none s h
    · have hrest : rest.find?
          (fun x => decide (x.status = "active") && !(x.is_expired now)) = none := by
        rw [List.find?_cons_of_neg _ (by simp [hact])] at h
        exact h
      simp [expireStaleActives, hact, ih hrest]

/-- If the pet has an active unexpired session, the start_face_id loop
stops at the first one: it reports that session's token, keeps that
session in the list unchanged, and no session's token changes. -/
theorem expireStaleActives_some (now : ℚ) :
    ∀ (ss : List PetRegistrationSession) (s : PetRegistrationSession),
      ss.find? (fun x => decide (x.status = "active") && !(x.is_expired now)) = some s →
      (expireStaleActives now ss).2 = some s.session_token ∧
      s ∈ (expireStaleActives now ss).1 ∧
      (expireStaleActives now ss).1.map (fun x => x.session_token) =
        ss.map (fun x => x.session_token) ∧
      s.status = "active" ∧ s.is_expired now = false := by
  intro ss
  induction ss with
  | nil => intro s h; simp at h
  | cons s0 rest ih =>
    intro s h
    by_cases hact : s0.status = "active"
    · by_cases hexp : s0.is_expired now = true
      · have hrest := by
          rw [List.find?_cons_of_neg _ (by simp [hact, hexp])] at h
          exact h
        obtain ⟨h1, h2, h3, h4, h5⟩ := ih s hrest
        refine ⟨?_, ?_, ?_, h4, h5⟩ <;>
          simp [expireStaleActives, hact, hexp, h1, h2, h3]
      · rw [List.find?_cons_of_pos _ (by simp [hact, hexp])] at h
        cases h
        refine ⟨?_, ?_, ?_, hact, Bool.eq_false_iff.mpr hexp⟩ <;>
          simp [expireStaleActives, hact, hexp]
    · have hrest := by
        rw [List.find?_cons_of_neg _ (by simp [hact])] at h
        exact h
      obtain ⟨h1, h2, h3, h4, h5⟩ := ih s hrest
      refine ⟨?_, ?_, ?_, h4, h5⟩ <;>
        simp [expireStaleActives, hact, h1, h2, h3]

/-- C5: starting Face ID registration for a pet that has an active
unexpired session is rejected with the already-active error carrying that
session's token, with the pet record unchanged, the conflicting session
still present unchanged, and no session's token altered; if every active
session is expired (or none is active), each active session is saved with
status `expired`, a fresh `active` session carrying the newly generated
token (unique by hypothesis, enforced by the DB unique constraint) is
created with `expected_images_count = 10`, and the pet's registration
status is set to `processing`. -/
theorem start_face_id_spec (now : ℚ) (tok : String) (pet : Pet)
    (sessions : List PetRegistrationSession) :
    (∀ s, sessions.find? (fun x => decide (x.status = "active") && !(x.is_expired now)) =
        some s →
      (start_face_id now tok pet sessions).1 = .alreadyActive s.session_token ∧
      (start_face_id now tok pet sessions).2.1 = pet ∧
      s ∈ (start_face_id now tok pet sessions).2.2 ∧
      (start_face_id now tok pet sessions).2.2.map (fun x => x.session_token) =
        sessions.map (fun x => x.session_token)) ∧
    (sessions.find? (fun x => decide (x.status = "active") && !(x.is_expired now)) = none →
      start_face_id now tok pet sessions =
        (.started tok,
         { pet with registration_status := "processing" },
         sessions.map
             (fun s => if s.status = "active" then { s with status := "expired" } else s)
           ++ [{ pet := pet.id, session_token := tok, status := "active", start_time := now,
                 expected_images_count := 10, actual_images_count := 0 }]) ∧
      (tok ∉ sessions.map (fun x => x.session_token) →
        (start_face_id now tok pet sessions).2.2.map (fun x => x.session_token) =
          sessions.map (fun x => x.session_token) ++ [tok])) := by
  constructor
  · intro s h
    obtain ⟨h1, h2, h3, _, _⟩ := expireStaleActives_some now sessions s h
    cases hE : expireStaleActives now sessions with
    | mk fst snd =>
      rw [hE] at h1 h2 h3
      simp only at h1 h2 h3
      subst h1
      exact ⟨by simp [start_face_id, hE], by simp [start_face_id, hE],
        by simpa [start_face_id, hE] using h2, by simpa [start_face_id, hE] using h3⟩
  · intro h
    have hE := expireStaleActives_none now sessions h
    constructor
    · simp [start_face_id, hE]
    · intro _
      simp [start_face_id, hE, List.map_append, List.map_map, Function.comp,
        apply_ite (fun x : PetRegistrationSession => x.session_token)]

/-- C5 witness: with an expired active session and an unexpired active
session, the start is rejected with the unexpired session's token and
nothing the claim constrains changes; with only the expired active session
and a completed one, the start succeeds, expires the stale session, and
appends the fresh `active` session while the pet moves to `processing`. -/
theorem start_face_id_witness :
    (start_face_id 0 "tok-new" petFixture [staleActiveSession, freshActiveSession]).1 =
      .alreadyActive "tok-fresh" ∧
    (start_face_id 0 "tok-new" petFixture [staleActiveSession, freshActiveSession]).2.1 =
      petFixture ∧
    start_face_id 0 "tok-new" petFixture [staleActiveSession, completedSession] =
      (.started "tok-new", { petFixture with registration_status := "processing" },
       [{ staleActiveSession with status := "expired" }, completedSession,
        { pet := 7, session_token := "tok-new", status := "active", start_time := 0,
          expected_images_count := 10, actual_images_count := 0 }]) := by
  have hfind1 : [staleActiveSession, freshActiveSession].find?
      (fun x => decide (x.status = "active") && !(x.is_expired 0)) =
      some freshActiveSession := by
    rw [List.find?_cons_of_neg _
        (by simp [staleActiveSession, PetRegistrationSession.is_expired]; norm_num),
      List.find?_cons_of_pos _
        (by simp [freshActiveSession, PetRegistrationSession.is_expired])]
  have hfind2 : [staleActiveSession, completedSession].find?
      (fun x => decide (x.status = "active") && !(x.is_expired 0)) = none := by
    rw [List.find?_cons_of_neg _
        (by simp [staleActiveSession, PetRegistrationSession.is_expired]; norm_num),
      List.find?_cons_of_neg _ (by simp [completedSession])]
    rfl
  obtain ⟨h1, h2, _, _⟩ :=
    (start_face_id_spec 0 "tok-new" petFixture [staleActiveSession, freshActiveSession]).1
      freshActiveSession hfind1
  refine ⟨by rw [h1]; rfl, h2, ?_⟩
  have h3 :=
    ((start_face_id_spec 0 "tok-new" petFixture [staleActiveSession, completedSession]).2
      hfind2).1
  rw [h3]
  simp [staleActiveSession, completedSession, petFixture]

/-- C3: ranking computes a scored entry for every completed template in
the corpus and only those, sorts descending by similarity, and truncates
to `top_k`: the result length is `min top_k` (number of completed
templates), the result is descending, every result entry is the scored
entry of some completed template, and when `top_k` covers the whole
completed corpus the result is a permutation of all scored entries. -/
theorem find_similar_pets_rank_spec (q : List ℚ) (corpus : List FaceEmbedding)
    (top_k : Nat) :
    (find_similar_pets q corpus top_k).length =
      min top_k (completedTemplates corpus).length ∧
    List.Sorted simDescOrd (find_similar_pets q corpus top_k) ∧
    (∀ m ∈ find_similar_pets q corpus top_k,
      ∃ e ∈ completedTemplates corpus, m = scoreTemplate q e) ∧
    ((completedTemplates corpus).length ≤ top_k →
      (find_similar_pets q corpus top_k).Perm
        ((completedTemplates corpus).map (scoreTemplate q))) := by
  have hfe : find_similar_pets q corpus top_k =
      (List.insertionSort simDescOrd
        ((completedTemplates corpus).map (scoreTemplate q))).take top_k := rfl
  refine ⟨?_, ?_, ?_, ?_⟩
  · rw [hfe, List.length_take, List.length_insertionSort, List.length_map]
  · rw [hfe]
    exact List.Pairwise.sublist (List.take_sublist _ _)
      (List.sorted_insertionSort simDescOrd _)
  · intro m hm
    rw [hfe] at hm
    have hmem := (List.mem_insertionSort simDescOrd).mp (List.take_subset _ _ hm)
    obtain ⟨e, he, rfl⟩ := List.mem_map.mp hmem
    exact ⟨e, he, rfl⟩
  · intro hlen
    rw [hfe, List.take_of_length_le (by rw [List.length_insertionSort, List.length_map]; exact hlen)]
    exact List.perm_insertionSort simDescOrd _

/-- C3 witness: with the concrete corpus of five completed templates (and
one pending), ranking with `top_k = 3` returns exactly three entries, in
descending similarity order. -/
theorem find_similar_pets_rank_witness :
    (find_similar_pets [1, 0] corpusFixture 3).length = 3 ∧
    List.Sorted simDescOrd (find_similar_pets [1, 0] corpusFixture 3) := by
  have h := find_similar_pets_rank_spec [1, 0] corpusFixture 3
  refine ⟨?_, h.2.1⟩
  rw [h.1]
  rfl

/-- Componentwise addition commutes with indexing (zero default) for
equal-length vectors. -/
theorem zipAdd_getD :
    ∀ (a b : List ℚ) (j : Nat), a.length = b.length →
      (List.zipWith (· + ·) a b).getD j 0 = a.getD j 0 + b.getD j 0 := by
  intro a
  induction a with
  | nil =>
    intro b j h
    cases b with
    | nil => simp
    | cons y ys => simp at h
  | cons x xs ih =>
    intro b j h
    cases b with
    | nil => simp at h
    | cons y ys =>
      cases j with
      | zero => simp
      | succ j =>
        simp only [List.zipWith_cons_cons, List.getD_cons_succ]
        exact ih ys j (by simpa using h)

/-- The componentwise sum of a nonempty list of `d`-length vectors has
length `d`. -/
theorem sumVecs_length :
    ∀ (vs : List (List ℚ)) (d : Nat), (∀ v ∈ vs, v.length = d) → vs ≠ [] →
      (sumVecs vs).length = d := by
  intro vs
  induction vs with
  | nil => intro d _ hne; exact absurd rfl hne
  | cons v rest ih =>
    intro d h _
    cases rest with
    | nil => simpa using h v (by simp)
    | cons w ws =>
      have hlen : (sumVecs (w :: ws)).length = d :=
        ih d (fun u hu => h u (List.mem_cons_of_mem v hu)) (by simp)
      simp only [sumVecs, List.length_zipWith, hlen, h v (by simp)]
      exact Nat.min_self d

/-- Indexing the componentwise sum of equal-length vectors gives the sum
of the indexed components. -/
theorem sumVecs_getD :
    ∀ (vs : List (List ℚ)) (d : Nat), (∀ v ∈ vs, v.length = d) → ∀ j : Nat,
      (sumVecs vs).getD j 0 = (vs.map (fun v => v.getD j 0)).sum := by
  intro vs
  induction vs with
  | nil => intro d _ j; simp [sumVecs]
  | cons v rest ih =>
    intro d h j
    cases rest with
    | nil => simp [sumVecs]
    | cons w ws =>
      have hlen : (sumVecs (w :: ws)).length = d :=
        sumVecs_length (w :: ws) d (fun u hu => h u (List.mem_cons_of_mem v hu)) (by simp)
      have hv : v.length = (sumVecs (w :: ws)).length := by
        rw [hlen]; exact h v (by simp)
      calc (sumVecs (v :: w :: ws)).getD j 0
          = v.getD j 0 + (sumVecs (w :: ws)).getD j 0 := by
            simp only [sumVecs]
            exact zipAdd_getD v (sumVecs (w :: ws)) j hv
        _ = v.getD j 0 + ((w :: ws).map (fun u => u.getD j 0)).sum := by
            rw [ih d (fun u hu => h u (List.mem_cons_of_mem v hu)) j]
        _ = ((v :: w :: ws).map (fun u => u.getD j 0)).sum := by simp

/-- Indexing a mapped list (zero default) commutes with a function fixing
zero. -/
theorem getD_map_zero (f : ℚ → ℚ) (hf : f 0 = 0) :
    ∀ (l : List ℚ) (j : Nat), (l.map f).getD j 0 = f (l.getD j 0) := by
  intro l
  induction l with
  | nil => intro j; simp [hf]
  | cons x xs ih =>
    intro j
    cases j with
    | zero => simp
    | succ j => simpa using ih j

/-- Indexing the componentwise mean: each component of `npMean vs` is the
corresponding component of the componentwise sum divided by the number of
vectors. -/
theorem npMean_getD (vs : List (List ℚ)) (j : Nat) :
    (npMean vs).getD j 0 = (sumVecs vs).getD j 0 / (vs.length : ℚ) := by
  unfold npMean
  exact getD_map_zero (fun x => x / (vs.length : ℚ)) (zero_div _) (sumVecs vs) j

/-- C4: the template builder returns `none` exactly when no image yields a
successful embedding (in particular on an empty image list); otherwise it
returns a template with status `completed`, whose source image count is
the number of images that contributed, and whose embedding vector is the
componentwise arithmetic mean of the successful per-image vectors (all of
the embedding model's fixed dimension `d`). -/
theorem generate_pet_embeddings_spec (pet : Nat) (pet_images : List PetImage) (d : Nat)
    (hdim : ∀ v ∈ pet_images.filterMap process_pet_image, v.length = d) :
    (generate_pet_embeddings pet pet_images = none ↔
      pet_images.filterMap process_pet_image = []) ∧
    (∀ fe, generate_pet_embeddings pet pet_images = some fe →
      fe.status = "completed" ∧
      fe.source_images_count = (pet_images.filterMap process_pet_image).length ∧
      fe.embedding_vector = npMean (pet_images.filterMap process_pet_image) ∧
      ∀ j, j < d →
        fe.embedding_vector.getD j 0 =
          ((pet_images.filterMap process_pet_image).map (fun v => v.getD j 0)).sum /
            ((pet_images.filterMap process_pet_image).length : ℚ)) := by
  constructor
  · cases pet_images with
    | nil => simp [generate_pet_embeddings]
    | cons x xs =>
      cases hfm : (x :: xs).filterMap process_pet_image with
      | nil => simp [generate_pet_embeddings, hfm]
      | cons e es => simp [generate_pet_embeddings, hfm]
  · intro fe hfe
    cases pet_images with
    | nil => simp [generate_pet_embeddings] at hfe
    | cons x xs =>
      cases hfm : (x :: xs).filterMap process_pet_image with
      | nil => rw [generate_pet_embeddings, hfm] at hfe; cases hfe
      | cons e es =>
        rw [generate_pet_embeddings, hfm] at hfe
        cases hfe
        refine ⟨rfl, rfl, rfl, ?_⟩
        intro j _
        show (npMean (e :: es)).getD j 0 = _
        rw [npMean_getD, sumVecs_getD (e :: es) d (by rw [← hfm]; exact hdim) j]

/-- C4 witness: of the three concrete images, two contribute embeddings
(`[1, 3]` and `[3, 1]`) and one has no face detection; the template is
built with status `completed`, source image count 2, and the componentwise
mean `[2, 2]`. -/
theorem generate_pet_embeddings_witness :
    generate_pet_embeddings 7 imgsFixture ≠ none ∧
    (generate_pet_embeddings 7 imgsFixture).map
        (fun fe => (fe.status, fe.source_images_count, fe.embedding_vector.getD 0 0,
          fe.embedding_vector.getD 1 0)) = some ("completed", 2, 2, 2) := by
  have hfm : imgsFixture.filterMap process_pet_image = [[1, 3], [3, 1]] := by
    simp [imgsFixture, process_pet_image, List.filterMap_cons,
      show pyEndsWith "cat_face" "_face" = true from by decide,
      show pyEndsWith "cat" "_face" = false from by decide,
      show pyEndsWith "dog_face" "_face" = true from by decide]
  have hdim : ∀ v ∈ imgsFixture.filterMap process_pet_image, v.length = 2 := by
    rw [hfm]
    intro v hv
    simp at hv
    rcases hv with rfl | rfl <;> rfl
  have h := generate_pet_embeddings_spec 7 imgsFixture 2 hdim
  have hne : generate_pet_embeddings 7 imgsFixture ≠ none := by
    intro hn
    have h0 := h.1.mp hn
    rw [hfm] at h0
    simp at h0
  refine ⟨hne, ?_⟩
  cases hgen : generate_pet_embeddings 7 imgsFixture with
  | none => exact absurd hgen hne
  | some fe =>
    obtain ⟨hs, hc, _, hg⟩ := h.2 fe hgen
    have hg0 := hg 0 (by norm_num)
    have hg1 := hg 1 (by norm_num)
    rw [hfm] at hg0 hg1 hc
    simp at hg0 hg1
    norm_num at hg0 hg1
    simp [hs, hc, hg0, hg1]

/-- Folding addition from a `nan` accumulator stays `nan`. -/
theorem foldl_pyAdd_nan : ∀ l : List PyFloat, l.foldl PyFloat.add .nan = .nan := by
  intro l
  induction l with
  | nil => rfl
  | cons p rest ih =>
    rw [List.foldl_cons, show PyFloat.add .nan p = .nan from rfl]
    exact ih

/-- A dot product whose left argument is a nonempty all-`nan` vector (with
matching length) is `nan`. -/
theorem npDot_nan_left (a b : List PyFloat) (ha : ∀ p ∈ a, p = .nan) (hne : a ≠ [])
    (hlen : a.length = b.length) : npDot a b = .nan := by
  cases a with
  | nil => exact absurd rfl hne
  | cons p ps =>
    cases b with
    | nil => simp at hlen
    | cons q qs =>
      unfold npDot
      rw [List.zipWith_cons_cons, ha p (by simp), List.foldl_cons,
        show PyFloat.add (.val 0) (PyFloat.mul .nan q) = .nan from rfl]
      exact foldl_pyAdd_nan _

/-- The zero-vector behaviour is not an artifact of one input: for every
nonempty zero vector `z` and every vector `w` of the same length, the code
returns `1`, because the componentwise `0/0` divisions make the left
normalized vector all-`nan`, the dot product `nan`, and the Python clamp
`max(0, min(1, nan))` selects `1`. -/
theorem calculate_cosine_similarity_zero_vector_general (z w : List ℚ) (hz : z ≠ [])
    (hlen : z.length = w.length) (hzero : ∀ x ∈ z, x = 0) :
    calculate_cosine_similarity z w = 1 := by
  unfold calculate_cosine_similarity
  rw [if_neg (by simp [hlen])]
  show (pyMaxZero (pyMinOne (npDot
      (z.map (fun x => PyFloat.div (.val x) (.val (npNorm z))))
      (w.map (fun x => PyFloat.div (.val x) (.val (npNorm w))))))).toRat = 1
  have hns : normSq z = 0 := by
    unfold normSq
    apply List.sum_eq_zero
    intro y hy
    obtain ⟨x, hx, rfl⟩ := List.mem_map.mp hy
    rw [hzero x hx]
    ring
  have hnorm : npNorm z = 0 := by
    rw [npNorm, hns, ratSqrt]
    simp
  have hv1 : z.map (fun x => PyFloat.div (.val x) (.val (npNorm z))) =
      z.map (fun _ => PyFloat.nan) := by
    apply List.map_congr_left
    intro x _
    rw [hnorm]
    simp [PyFloat.div]
  rw [hv1]
  rw [npDot_nan_left _ _ (by simp) (by simpa using hz) (by simpa using hlen)]
  rw [show pyMinOne .nan = .val 1 from rfl]
  rw [show pyMaxZero (.val 1) = .val 1 by simp [pyMaxZero, PyFloat.lt]]
  rfl
